import Mathlib

/-!
Shallow embedding of the momentum-scroll core of `react-scroll-snap-momentum`:
the touchpad momentum classifier (`useTouchpadDetection`), the adaptive
throttle (`useScrollThrottle`) and the vertical navigation container
(`useScrollContainer`: wheel handler, touch handlers, `scrollToSection`,
pop-state/URL navigation, watchdog `checkStuckState`).

Times and wheel deltas are modelled as `Int` (the source uses `Date.now()`
millisecond integers and numeric deltas); mutable React refs become explicit
state records threaded through the handlers; side effects on external
collaborators (`scrollIntoView`, `updateURL`) are recorded in an effect log.
-/

namespace ScrollSnap

/-- Configuration of `useTouchpadDetection` (`minTimeGap`, `minDelta`). -/
structure TouchpadConfig where
  minTimeGap : Int
  minDelta : Int
deriving DecidableEq

/-- Mutable refs of `useTouchpadDetection`: `lastDeltaRef`,
`lastDirectionRef`, `lastEventTimeRef`, all initialised to 0. -/
structure DetectionState where
  lastDelta : Int
  lastDirection : Int
  lastEventTime : Int
deriving DecidableEq

/-- Initial classifier state: all three refs start at 0. -/
def initialDetectionState : DetectionState := ⟨0, 0, 0⟩

/-- `detectInertia` from `useTouchpadDetection.ts`: labels a wheel sample
(`deltaY` at instant `now`) as momentum iff the event is too quick, in the
same direction as the previous one, and its magnitude is not increasing;
unconditionally overwrites the tracking refs with this sample. Returns the
momentum flag together with the updated state. -/
def detectInertia (cfg : TouchpadConfig) (s : DetectionState)
    (deltaY now : Int) : Bool × DetectionState :=
  let currentDelta := |deltaY|
  let currentDirection := Int.sign deltaY
  let timeSinceLastEvent := now - s.lastEventTime
  let isTimeTooQuick := decide (timeSinceLastEvent < cfg.minTimeGap)
  let isSameDirection :=
    decide (s.lastDirection ≠ 0) && decide (currentDirection = s.lastDirection)
  let isDeltaNotIncreasing := decide (currentDelta ≤ s.lastDelta)
  let isMomentumScroll := isTimeTooQuick && isSameDirection && isDeltaNotIncreasing
  (isMomentumScroll, ⟨currentDelta, currentDirection, now⟩)

/-- `isValidDelta` from `useTouchpadDetection.ts`: the sample is significant
iff `|deltaY| ≥ minDelta`. -/
def isValidDelta (cfg : TouchpadConfig) (deltaY : Int) : Bool :=
  decide (|deltaY| ≥ cfg.minDelta)

/-- Configuration of `useScrollThrottle` (`normalThrottle`,
`momentumThrottle`). -/
structure ThrottleConfig where
  normalThrottle : Int
  momentumThrottle : Int
deriving DecidableEq

/-- Mutable ref of `useScrollThrottle`: `lastThrottleTimeRef`,
initialised to 0. -/
structure ThrottleState where
  lastThrottleTime : Int
deriving DecidableEq

/-- Initial throttle state: `lastThrottleTimeRef` starts at 0. -/
def initialThrottleState : ThrottleState := ⟨0⟩

/-- `isThrottled` from `useScrollThrottle.ts`: picks the effective duration
by the momentum flag and reports whether the time since the last accepted
action is still below it. -/
def isThrottled (cfg : ThrottleConfig) (s : ThrottleState)
    (isMomentumScroll : Bool) (now : Int) : Bool :=
  let effectiveThrottle :=
    if isMomentumScroll then cfg.momentumThrottle else cfg.normalThrottle
  let timeSinceLastThrottle := now - s.lastThrottleTime
  decide (timeSinceLastThrottle < effectiveThrottle)

/-- `updateThrottle` from `useScrollThrottle.ts`: records `now` as the last
accepted-action timestamp. -/
def updateThrottle (_s : ThrottleState) (now : Int) : ThrottleState := ⟨now⟩

/-- The `throttleType` string of `ThrottleStatus`. -/
inductive ThrottleType where
  | momentum
  | normal
deriving DecidableEq

/-- The record returned by `getThrottleStatus`. -/
structure ThrottleStatus where
  isThrottled : Bool
  remainingTime : Int
  effectiveThrottle : Int
  timeSinceLastThrottle : Int
  throttleType : ThrottleType
deriving DecidableEq

/-- `getThrottleStatus` from `useScrollThrottle.ts`: an independent
computation of the throttle verdict via `remainingTime = max 0 (effective -
timeSince)`, reporting `isThrottled := remainingTime > 0`. -/
def getThrottleStatus (cfg : ThrottleConfig) (s : ThrottleState)
    (isMomentumScroll : Bool) (now : Int) : ThrottleStatus :=
  let effectiveThrottle :=
    if isMomentumScroll then cfg.momentumThrottle else cfg.normalThrottle
  let timeSinceLastThrottle := now - s.lastThrottleTime
  let remainingTime := max 0 (effectiveThrottle - timeSinceLastThrottle)
  { isThrottled := decide (remainingTime > 0)
    remainingTime := remainingTime
    effectiveThrottle := effectiveThrottle
    timeSinceLastThrottle := timeSinceLastThrottle
    throttleType := if isMomentumScroll then .momentum else .normal }

/-- `reset` from `useScrollThrottle.ts`: sets the ref back to 0. -/
def resetThrottle (_s : ThrottleState) : ThrottleState := ⟨0⟩

/-- Scroll behaviour passed to `scrollIntoView`. -/
inductive ScrollBehavior where
  | smooth
  | instant
deriving DecidableEq

/-- Observable side effects of the container on its external collaborators:
a `scrollIntoView` request for a section element and an `updateURL`
notification. -/
inductive Effect where
  | scrollIntoView (idx : Int) (behavior : ScrollBehavior)
  | urlUpdate (idx : Int)
deriving DecidableEq

/-- Configuration of the vertical `useScrollContainer`: the section count,
the classifier and throttle settings it instantiates, and the element
registry `sectionRefs` (`registered i = true` iff an element is attached at
index `i`). In the hook the settings are `minTimeGap = 1500`, `minDelta =
4`, `normalThrottle = 600`, `momentumThrottle = 1200`. -/
structure ContainerConfig where
  totalSections : Int
  detection : TouchpadConfig
  throttle : ThrottleConfig
  registered : Int → Bool

/-- The mutable state of one `useScrollContainer` instance: `currentSection`,
`isScrollingRef`, `lastScrollTimeRef`, the pending 2000 ms safety timeout
(`scrollTimeoutRef`, modelled as its scheduled firing instant), the touch
tracking refs, the classifier and throttle refs, and the log of effects
issued to external collaborators. -/
structure ContainerState where
  currentSection : Int
  isScrolling : Bool
  lastScrollTime : Int
  scrollTimeout : Option Int
  touchStartY : Int
  touchStartTime : Int
  isTouching : Bool
  detection : DetectionState
  throttle : ThrottleState
  log : List Effect
deriving DecidableEq

/-- Mount-time state of the container: index 0, idle, all refs zeroed. -/
def initialContainerState : ContainerState :=
  { currentSection := 0
    isScrolling := false
    lastScrollTime := 0
    scrollTimeout := none
    touchStartY := 0
    touchStartTime := 0
    isTouching := false
    detection := initialDetectionState
    throttle := initialThrottleState
    log := [] }

/-- `scrollToSection` from `useScrollContainer.ts`: if an element is
registered for the index, locks the transition (`isScrollingRef := true`,
`lastScrollTimeRef := now`), replaces the 2000 ms safety timeout, issues a
smooth `scrollIntoView`, sets `currentSection`, notifies `updateURL` and
calls `updateThrottle`; with no registered element it does nothing. -/
def scrollToSection (cfg : ContainerConfig) (s : ContainerState)
    (sectionIndex now : Int) : ContainerState :=
  if cfg.registered sectionIndex then
    { s with
      isScrolling := true
      lastScrollTime := now
      scrollTimeout := some (now + 2000)
      log := s.log ++
        [Effect.scrollIntoView sectionIndex .smooth, Effect.urlUpdate sectionIndex]
      currentSection := sectionIndex
      throttle := updateThrottle s.throttle now }
  else s

/-- `handlePopStateNavigation` from `useScrollContainer.ts`: on browser
back/forward, if an element is registered, issues a smooth `scrollIntoView`
and sets `currentSection` — it touches neither the transition lock, nor the
throttle, nor the URL updater. -/
def handlePopStateNavigation (cfg : ContainerConfig) (s : ContainerState)
    (sectionIndex : Int) : ContainerState :=
  if cfg.registered sectionIndex then
    { s with
      log := s.log ++ [Effect.scrollIntoView sectionIndex .smooth]
      currentSection := sectionIndex }
  else s

/-- `handleURLSectionChange` from `useScrollContainer.ts`: like pop-state
navigation but with a caller-chosen scroll behaviour. -/
def handleURLSectionChange (cfg : ContainerConfig) (s : ContainerState)
    (sectionIndex : Int) (behavior : ScrollBehavior) : ContainerState :=
  if cfg.registered sectionIndex then
    { s with
      log := s.log ++ [Effect.scrollIntoView sectionIndex behavior]
      currentSection := sectionIndex }
  else s

/-- The intersection-observer callback of `useScrollContainer.ts`, fired
when the target section crosses the 0.5 visibility ratio: clears the safety
timeout and resets `isScrollingRef`. -/
def confirmArrived (s : ContainerState) : ContainerState :=
  { s with scrollTimeout := none, isScrolling := false }

/-- `checkStuckState` from `useScrollContainer.ts` (the 1000 ms watchdog):
if the transition lock has been held for more than 5000 ms, force-unlock and
drop the safety timeout; otherwise do nothing. -/
def checkStuckState (s : ContainerState) (now : Int) : ContainerState :=
  if s.isScrolling && decide (now - s.lastScrollTime > 5000) then
    { s with isScrolling := false, scrollTimeout := none }
  else s

/-- `throttledWheelHandler` from `useScrollContainer.ts`: runs the momentum
classifier (which always updates its refs), then bails out on insignificant
deltas, on an in-flight transition, and on an active throttle; otherwise
steps one section in the wheel direction, bounds-checked, via
`scrollToSection`. -/
def throttledWheelHandler (cfg : ContainerConfig) (s : ContainerState)
    (deltaY now : Int) : ContainerState :=
  let r := detectInertia cfg.detection s.detection deltaY now
  let isMomentumScroll := r.1
  let s := { s with detection := r.2 }
  if !isValidDelta cfg.detection deltaY then s
  else if s.isScrolling then s
  else if isThrottled cfg.throttle s.throttle isMomentumScroll now then s
  else
    let direction : Int := if deltaY > 0 then 1 else -1
    let nextSection := s.currentSection + direction
    if decide (nextSection ≥ 0) && decide (nextSection < cfg.totalSections) then
      scrollToSection cfg s nextSection now
    else s

/-- `handleTouchStart` from `useScrollContainer.ts`: ignored while a
transition is in flight; otherwise records the touch origin and arms the
touch stream. -/
def handleTouchStart (s : ContainerState) (clientY now : Int) : ContainerState :=
  if s.isScrolling then s
  else { s with touchStartY := clientY, touchStartTime := now, isTouching := true }

/-- `handleTouchEnd` from `useScrollContainer.ts`: ignored when the stream
is not armed; otherwise disarms it, validates the swipe (distance ≥ 50,
duration ≤ 800), checks the normal-tier throttle, and steps one section in
the swipe direction, bounds-checked, via `scrollToSection`. -/
def handleTouchEnd (cfg : ContainerConfig) (s : ContainerState)
    (clientY now : Int) : ContainerState :=
  if !s.isTouching then s
  else
    let deltaY := s.touchStartY - clientY
    let deltaTime := now - s.touchStartTime
    let distance := |deltaY|
    let s := { s with isTouching := false }
    if decide (distance < 50) then s
    else if decide (deltaTime > 800) then s
    else if isThrottled cfg.throttle s.throttle false now then s
    else
      let direction : Int := if deltaY > 0 then 1 else -1
      let nextSection := s.currentSection + direction
      if decide (nextSection ≥ 0) && decide (nextSection < cfg.totalSections) then
        scrollToSection cfg s nextSection now
      else s

/-- `handleTouchCancel` from `useScrollContainer.ts`: unconditionally
disarms the touch stream. -/
def handleTouchCancel (s : ContainerState) : ContainerState :=
  { s with isTouching := false }

/-- The classifier/throttle settings the vertical hook instantiates. -/
def hookTouchpadConfig : TouchpadConfig := ⟨1500, 4⟩

/-- The throttle durations the vertical hook instantiates (600 normal,
1200 momentum). -/
def hookThrottleConfig : ThrottleConfig := ⟨600, 1200⟩

/-- A registry with elements attached exactly at indices `0 … n-1`. -/
def registeredUpTo (n : Int) : Int → Bool :=
  fun i => decide (0 ≤ i) && decide (i < n)

/-- The vertical container as the demo page instantiates it with 5 sections,
all of them with registered elements. -/
def demoConfig5 : ContainerConfig :=
  ⟨5, hookTouchpadConfig, hookThrottleConfig, registeredUpTo 5⟩

/-- A 3-section container with every element registered. -/
def demoConfig3 : ContainerConfig :=
  ⟨3, hookTouchpadConfig, hookThrottleConfig, registeredUpTo 3⟩

/-- A 4-section container with every element registered. -/
def demoConfig4 : ContainerConfig :=
  ⟨4, hookTouchpadConfig, hookThrottleConfig, registeredUpTo 4⟩

/-- A container state whose transition lock is held (as right after an
accepted jump at time 0). -/
def busyState : ContainerState :=
  { initialContainerState with isScrolling := true }

/-- Claim C1: for any classifier state (hence along every sample stream from
the initial state `(0,0,0)`), `detectInertia` labels the sample with
magnitude `|deltaY|`, direction `sign deltaY`, time `now` as momentum iff
`now - lastEventTime < minTimeGap`, the previous direction is non-zero and
equal to the sample's, and `|deltaY| ≤ lastDelta`; it always stores exactly
`(|deltaY|, sign deltaY, now)` as the new state; and from the initial state
the first sample is always intentional. -/
theorem detectInertia_classifies_and_updates (cfg : TouchpadConfig)
    (s : DetectionState) (deltaY now : Int) :
    ((detectInertia cfg s deltaY now).1 = true ↔
      now - s.lastEventTime < cfg.minTimeGap ∧
        (s.lastDirection ≠ 0 ∧ Int.sign deltaY = s.lastDirection) ∧
        |deltaY| ≤ s.lastDelta) ∧
    (detectInertia cfg s deltaY now).2 =
      ⟨|deltaY|, Int.sign deltaY, now⟩ ∧
    (detectInertia cfg initialDetectionState deltaY now).1 = false := by
  refine ⟨?_, rfl, ?_⟩
  · simp [detectInertia, and_assoc]
  · simp [detectInertia, initialDetectionState]

/-- Claim C2: `isThrottled` returns true exactly when `now -
lastThrottleTime` is below the effective duration selected by the momentum
flag, `updateThrottle` stores `now`, and with durations 600/1800 after an
accepted action at `t = 0` the gate flips from true to false exactly at
`t = 600` on the normal tier and at `t = 1800` on the momentum tier. -/
theorem isThrottled_gate_boundaries :
    (∀ (cfg : ThrottleConfig) (s : ThrottleState) (isMomentumScroll : Bool)
      (now : Int),
      isThrottled cfg s isMomentumScroll now = true ↔
        now - s.lastThrottleTime <
          (if isMomentumScroll then cfg.momentumThrottle else cfg.normalThrottle)) ∧
    (∀ (s : ThrottleState) (now : Int),
      (updateThrottle s now).lastThrottleTime = now) ∧
    isThrottled ⟨600, 1800⟩ (updateThrottle initialThrottleState 0) false 599 = true ∧
    isThrottled ⟨600, 1800⟩ (updateThrottle initialThrottleState 0) false 600 = false ∧
    isThrottled ⟨600, 1800⟩ (updateThrottle initialThrottleState 0) true 1799 = true ∧
    isThrottled ⟨600, 1800⟩ (updateThrottle initialThrottleState 0) true 1800 = false := by
  refine ⟨?_, fun s now => rfl, by decide, by decide, by decide, by decide⟩
  intro cfg s isMomentumScroll now
  simp [isThrottled]

/-- Claim C10: the throttle verdict reported by `getThrottleStatus`
(`remainingTime > 0` with `remainingTime = max 0 (effectiveThrottle -
timeSinceLastThrottle)`) coincides with the boolean computed by
`isThrottled` for every state, instant and momentum flag, including at the
expiry boundary. -/
theorem getThrottleStatus_agrees_with_isThrottled (cfg : ThrottleConfig)
    (s : ThrottleState) (isMomentumScroll : Bool) (now : Int) :
    (getThrottleStatus cfg s isMomentumScroll now).isThrottled =
      isThrottled cfg s isMomentumScroll now := by
  cases isMomentumScroll <;>
    · simp only [getThrottleStatus, isThrottled, if_true, if_false,
        Bool.false_eq_true, Bool.true_eq_false, decide_eq_decide]
      omega

/-- Claim C3 counterexample: a touch gesture armed before a transition
begins is not blocked by `handleTouchEnd` — there is no in-flight check on
the touch-end path. Touch-start at `t = 0`, a programmatic jump to section 1
at `t = 50` (locking the transition), then touch-end at `t = 700`: the
transition is still in flight, yet the step proceeds and moves
`currentSection` from 1 to 2. -/
theorem touchEnd_during_transition_changes_index :
    (scrollToSection demoConfig3 (handleTouchStart initialContainerState 500 0) 1 50).isScrolling
        = true ∧
    (handleTouchEnd demoConfig3
        (scrollToSection demoConfig3 (handleTouchStart initialContainerState 500 0) 1 50)
        400 700).currentSection = 2 ∧
    (scrollToSection demoConfig3 (handleTouchStart initialContainerState 500 0) 1 50).currentSection
        = 1 := by
  decide

/-- Claim C3 (amended): a wheel-driven step delivered while a transition is
in flight leaves `currentSection`, the throttle timestamp, the transition
lock and its start time unchanged (only the classifier refs update); a
touch-start delivered while a transition is in flight is ignored entirely;
and a touch-end of an unarmed stream is a no-op — so a touch gesture that
begins during a transition has no effect. (A touch-end whose gesture was
armed before the transition began is not blocked, see the counterexample.) -/
theorem gesture_steps_blocked_while_transitioning (cfg : ContainerConfig)
    (s : ContainerState) (deltaY clientY now : Int) :
    (s.isScrolling = true →
      (throttledWheelHandler cfg s deltaY now).currentSection = s.currentSection ∧
      (throttledWheelHandler cfg s deltaY now).throttle = s.throttle ∧
      (throttledWheelHandler cfg s deltaY now).isScrolling = true ∧
      (throttledWheelHandler cfg s deltaY now).lastScrollTime = s.lastScrollTime) ∧
    (s.isScrolling = true → handleTouchStart s clientY now = s) ∧
    (s.isTouching = false → handleTouchEnd cfg s clientY now = s) := by
  refine ⟨fun h => ?_, fun h => ?_, fun h => ?_⟩
  · unfold throttledWheelHandler
    by_cases hv : isValidDelta cfg.detection deltaY <;> simp [hv, h]
  · simp [handleTouchStart, h]
  · simp [handleTouchEnd, h]

/-- Claim C3 witness: with the lock held, a wheel step at `t = 100` leaves
the index unchanged, a touch-start is ignored, and a touch-end of the
unarmed stream is a no-op. -/
theorem gesture_steps_blocked_while_transitioning_witness :
    (throttledWheelHandler demoConfig3 busyState 50 100).currentSection
        = busyState.currentSection ∧
    handleTouchStart busyState 300 100 = busyState ∧
    handleTouchEnd demoConfig3 busyState 300 100 = busyState :=
  ⟨((gesture_steps_blocked_while_transitioning demoConfig3 busyState 50 300 100).1 rfl).1,
   (gesture_steps_blocked_while_transitioning demoConfig3 busyState 50 300 100).2.1 rfl,
   (gesture_steps_blocked_while_transitioning demoConfig3 busyState 50 300 100).2.2 rfl⟩

/-- Claim C4 counterexample: a pop-state-driven jump to a registered target
does not set the transition lock — `handlePopStateNavigation` never touches
`isScrollingRef` or `lastScrollTimeRef`, contradicting the claim that every
cause sets `inTransition = true` and records `transitionStartedAt`. -/
theorem popState_jump_does_not_lock :
    demoConfig3.registered 1 = true ∧
    (handlePopStateNavigation demoConfig3 initialContainerState 1).currentSection = 1 ∧
    (handlePopStateNavigation demoConfig3 initialContainerState 1).isScrolling = false := by
  decide

/-- Claim C4 (amended): a gesture/API-originated jump (`scrollToSection`)
with a registered target sets the transition lock, records `now` as the
transition start, replaces the safety timeout, sets `currentSection`, issues
the scroll-into-view request and the URL update, and marks the throttle;
pop-state-driven and URL-driven jumps with a registered target set
`currentSection` and issue scroll-into-view only, leaving the transition
lock, its start time and the throttle timestamp unchanged and issuing no
URL update. -/
theorem jump_effects_by_cause (cfg : ContainerConfig) (s : ContainerState)
    (sectionIndex now : Int) (b : ScrollBehavior)
    (h : cfg.registered sectionIndex = true) :
    ((scrollToSection cfg s sectionIndex now).isScrolling = true ∧
     (scrollToSection cfg s sectionIndex now).lastScrollTime = now ∧
     (scrollToSection cfg s sectionIndex now).scrollTimeout = some (now + 2000) ∧
     (scrollToSection cfg s sectionIndex now).currentSection = sectionIndex ∧
     (scrollToSection cfg s sectionIndex now).throttle.lastThrottleTime = now ∧
     (scrollToSection cfg s sectionIndex now).log = s.log ++
        [Effect.scrollIntoView sectionIndex .smooth, Effect.urlUpdate sectionIndex]) ∧
    ((handlePopStateNavigation cfg s sectionIndex).currentSection = sectionIndex ∧
     (handlePopStateNavigation cfg s sectionIndex).isScrolling = s.isScrolling ∧
     (handlePopStateNavigation cfg s sectionIndex).lastScrollTime = s.lastScrollTime ∧
     (handlePopStateNavigation cfg s sectionIndex).throttle = s.throttle ∧
     (handlePopStateNavigation cfg s sectionIndex).log = s.log ++
        [Effect.scrollIntoView sectionIndex .smooth]) ∧
    ((handleURLSectionChange cfg s sectionIndex b).currentSection = sectionIndex ∧
     (handleURLSectionChange cfg s sectionIndex b).isScrolling = s.isScrolling ∧
     (handleURLSectionChange cfg s sectionIndex b).lastScrollTime = s.lastScrollTime ∧
     (handleURLSectionChange cfg s sectionIndex b).throttle = s.throttle ∧
     (handleURLSectionChange cfg s sectionIndex b).log = s.log ++
        [Effect.scrollIntoView sectionIndex b]) := by
  refine ⟨?_, ?_, ?_⟩ <;>
    simp [scrollToSection, handlePopStateNavigation, handleURLSectionChange,
      updateThrottle, h]

/-- Claim C4 witness: the effects of a gesture/API jump versus a pop-state
jump to registered section 1 at `t = 100`, from the mount state. -/
theorem jump_effects_by_cause_witness :
    (scrollToSection demoConfig3 initialContainerState 1 100).isScrolling = true ∧
    (handlePopStateNavigation demoConfig3 initialContainerState 1).isScrolling
        = initialContainerState.isScrolling ∧
    (handleURLSectionChange demoConfig3 initialContainerState 1 .instant).throttle
        = initialContainerState.throttle :=
  ⟨(jump_effects_by_cause demoConfig3 initialContainerState 1 100 .instant (by decide)).1.1,
   (jump_effects_by_cause demoConfig3 initialContainerState 1 100 .instant (by decide)).2.1.2.1,
   (jump_effects_by_cause demoConfig3 initialContainerState 1 100 .instant (by decide)).2.2.2.2.2.1⟩

/-- Claim C5 counterexample: the wheel handler calls `detectInertia` before
the significance filter, so a sub-`minDelta` event (here `deltaY = 3 < 4` at
`t = 100`) does change the classifier state — `(lastDelta, lastDirection,
lastEventTime)` becomes `(3, 1, 100)` instead of staying `(0, 0, 0)`. -/
theorem wheel_noise_updates_classifier_state :
    (throttledWheelHandler demoConfig5 initialContainerState 3 100).detection
        ≠ initialContainerState.detection ∧
    (throttledWheelHandler demoConfig5 initialContainerState 3 100).detection
        = ⟨3, 1, 100⟩ := by
  decide

/-- Claim C5 (amended): a wheel event with `|deltaY| < minDelta` causes no
action — the throttle timestamp, `currentSection`, the transition lock, the
touch refs and the effect log are all exactly as before — but the classifier
state is updated to that sample, because classification runs before the
significance filter in the handler. -/
theorem wheel_noise_only_updates_classifier (cfg : ContainerConfig)
    (s : ContainerState) (deltaY now : Int)
    (h : |deltaY| < cfg.detection.minDelta) :
    throttledWheelHandler cfg s deltaY now =
      { s with detection := (detectInertia cfg.detection s.detection deltaY now).2 } := by
  have hv : isValidDelta cfg.detection deltaY = false := by
    simp only [isValidDelta, decide_eq_false_iff_not, not_le]
    exact h
  simp [throttledWheelHandler, hv]

/-- Claim C5 witness: the noise event `deltaY = 3` at `t = 100` leaves the
mount state unchanged except for the classifier refs. -/
theorem wheel_noise_only_updates_classifier_witness :
    throttledWheelHandler demoConfig5 initialContainerState 3 100 =
      { initialContainerState with
        detection :=
          (detectInertia demoConfig5.detection initialContainerState.detection 3 100).2 } :=
  wheel_noise_only_updates_classifier demoConfig5 initialContainerState 3 100 (by decide)

/-- Claim C6: when the element registry covers only indices inside
`[0, total-1]` (as the hook populates it), `scrollToSection` with an
out-of-range target finds no registered element and returns the state
unchanged — no index change, no lock, no throttle mark, no scroll-into-view
request and no URL update. -/
theorem scrollToSection_out_of_range_noop (cfg : ContainerConfig)
    (s : ContainerState) (sectionIndex now : Int)
    (hreg : ∀ i, cfg.registered i = true → 0 ≤ i ∧ i < cfg.totalSections)
    (hout : sectionIndex < 0 ∨ cfg.totalSections ≤ sectionIndex) :
    scrollToSection cfg s sectionIndex now = s := by
  have h : cfg.registered sectionIndex = false := by
    cases hr : cfg.registered sectionIndex
    · rfl
    · rcases hreg sectionIndex hr with ⟨h0, h1⟩
      rcases hout with h2 | h2 <;> omega
  simp [scrollToSection, h]

/-- Claim C6 witness: jumping to section 7 of the 5-section demo container
at `t = 100` is a no-op on the mount state. -/
theorem scrollToSection_out_of_range_noop_witness :
    scrollToSection demoConfig5 initialContainerState 7 100 = initialContainerState :=
  scrollToSection_out_of_range_noop demoConfig5 initialContainerState 7 100
    (fun i hi => by
      simp only [demoConfig5, registeredUpTo, Bool.and_eq_true, decide_eq_true_eq] at hi
      exact ⟨hi.1, hi.2⟩)
    (Or.inr (by decide))

/-- Claim C7: a single watchdog tick at `now` forces the transition lock
open exactly when it has been held for strictly more than 5000 ms: if
`isScrolling` and `now - lastScrollTime > 5000` the tick clears the lock
(leaving `currentSection` and the throttle untouched); in particular with
`lastScrollTime = now - 6000` one tick unlocks; a tick while idle, or within
the threshold, changes nothing. -/
theorem checkStuckState_watchdog (s : ContainerState) (now : Int) :
    (s.isScrolling = true → now - s.lastScrollTime > 5000 →
      (checkStuckState s now).isScrolling = false ∧
      (checkStuckState s now).currentSection = s.currentSection ∧
      (checkStuckState s now).throttle = s.throttle) ∧
    (s.isScrolling = true → s.lastScrollTime = now - 6000 →
      (checkStuckState s now).isScrolling = false) ∧
    (s.isScrolling = false → checkStuckState s now = s) ∧
    (now - s.lastScrollTime ≤ 5000 → checkStuckState s now = s) := by
  refine ⟨fun h1 h2 => ?_, fun h1 h2 => ?_, fun h1 => ?_, fun h1 => ?_⟩
  · simp [checkStuckState, h1, h2]
  · have h2' : now - s.lastScrollTime > 5000 := by omega
    simp [checkStuckState, h1, h2']
  · simp [checkStuckState, h1]
  · have h2 : ¬ (now - s.lastScrollTime > 5000) := by omega
    simp [checkStuckState, h2]

/-- Claim C7 witness: a stuck lock started at `t = 0` is cleared by one tick
at `t = 6000`, and a tick at `t = 3000` (within the threshold) is inert. -/
theorem checkStuckState_watchdog_witness :
    (checkStuckState busyState 6000).isScrolling = false ∧
    checkStuckState busyState 3000 = busyState ∧
    checkStuckState initialContainerState 6000 = initialContainerState :=
  ⟨(checkStuckState_watchdog busyState 6000).2.1 rfl (by decide),
   (checkStuckState_watchdog busyState 3000).2.2.2 (by decide),
   (checkStuckState_watchdog initialContainerState 6000).2.2.1 rfl⟩

/-- Claim C9: a gesture step whose target index is out of range never
reaches `scrollToSection`, so `currentSection` and the throttle timestamp
are exactly what they were before — the rejected step does not arm the
throttle window; this holds for the wheel handler and for the touch-end
handler alike. -/
theorem rejected_bounds_step_consumes_no_throttle (cfg : ContainerConfig)
    (s : ContainerState) (deltaY clientY now : Int) :
    (s.currentSection + (if deltaY > 0 then (1 : Int) else -1) < 0 ∨
        cfg.totalSections ≤ s.currentSection + (if deltaY > 0 then (1 : Int) else -1) →
      (throttledWheelHandler cfg s deltaY now).currentSection = s.currentSection ∧
      (throttledWheelHandler cfg s deltaY now).throttle = s.throttle) ∧
    (s.currentSection + (if s.touchStartY - clientY > 0 then (1 : Int) else -1) < 0 ∨
        cfg.totalSections ≤
          s.currentSection + (if s.touchStartY - clientY > 0 then (1 : Int) else -1) →
      (handleTouchEnd cfg s clientY now).currentSection = s.currentSection ∧
      (handleTouchEnd cfg s clientY now).throttle = s.throttle) := by
  constructor
  · intro hout
    unfold throttledWheelHandler
    have hb : (decide (s.currentSection + (if deltaY > 0 then (1 : Int) else -1) ≥ 0) &&
        decide (s.currentSection + (if deltaY > 0 then (1 : Int) else -1)
          < cfg.totalSections)) = false := by
      rcases hout with h | h <;> simp <;> omega
    by_cases hv : isValidDelta cfg.detection deltaY <;>
      by_cases hs : s.isScrolling <;>
        by_cases ht : isThrottled cfg.throttle s.throttle
          (detectInertia cfg.detection s.detection deltaY now).1 now <;>
          simp [hv, hs, ht, hb]
  · intro hout
    unfold handleTouchEnd
    rcases lt_or_le clientY s.touchStartY with hdir | hdir
    · rw [if_pos (show s.touchStartY - clientY > 0 by omega)] at hout
      by_cases htc : s.isTouching <;>
        by_cases hd : |s.touchStartY - clientY| < 50 <;>
          by_cases hdt : now - s.touchStartTime > 800 <;>
            by_cases ht : isThrottled cfg.throttle s.throttle false now <;>
              (simp [htc, hd, hdt, ht, hdir]
               all_goals refine ⟨?_, ?_⟩
               all_goals rw [if_neg (by omega)])
    · rw [if_neg (show ¬ s.touchStartY - clientY > 0 by omega)] at hout
      have hdir' : ¬ clientY < s.touchStartY := by omega
      by_cases htc : s.isTouching <;>
        by_cases hd : |s.touchStartY - clientY| < 50 <;>
          by_cases hdt : now - s.touchStartTime > 800 <;>
            by_cases ht : isThrottled cfg.throttle s.throttle false now <;>
              (simp [htc, hd, hdt, ht, hdir']
               all_goals refine ⟨?_, ?_⟩
               all_goals rw [if_neg (by omega)])

/-- Claim C9 witness: with `total = 4` and `currentSection = 0`, a downward
step (`deltaY = -10` at `t = 1000`, target index `-1`) leaves the index at 0
and the throttle timestamp untouched. -/
theorem rejected_bounds_step_consumes_no_throttle_witness :
    (throttledWheelHandler demoConfig4 initialContainerState (-10) 1000).currentSection
        = initialContainerState.currentSection ∧
    (throttledWheelHandler demoConfig4 initialContainerState (-10) 1000).throttle
        = initialContainerState.throttle :=
  (rejected_bounds_step_consumes_no_throttle demoConfig4 initialContainerState
      (-10) 17 1000).1 (Or.inl (by decide))

/-- The mount instant of the claim-C8 trace. The hook's refs are initialised
to 0 while event timestamps come from `Date.now()`, which is far from 0, so
the trace's relative times `t = 0, 20, 45, 5000` are modelled as absolute
instants `traceBase + t`. -/
def traceBase : Int := 1000000

/-- The demo trace of claim C8, step 1: wheel `deltaY = 50` at `t = 0` from
the mount state of the 5-section container. -/
def traceAfterFirst : ContainerState :=
  throttledWheelHandler demoConfig5 initialContainerState 50 traceBase

/-- The demo trace, after the intersection observer confirms arrival of the
first transition (the external completion signal, delivered before the next
wheel event). -/
def traceSettled : ContainerState := confirmArrived traceAfterFirst

/-- The demo trace, step 2: wheel `deltaY = 40` at `t = 20`. -/
def traceAfterSecond : ContainerState :=
  throttledWheelHandler demoConfig5 traceSettled 40 (traceBase + 20)

/-- The demo trace, step 3: wheel `deltaY = 28` at `t = 45`. -/
def traceAfterThird : ContainerState :=
  throttledWheelHandler demoConfig5 traceAfterSecond 28 (traceBase + 45)

/-- The demo trace, step 4: wheel `deltaY = 10` at `t = 5000`. -/
def traceAfterFourth : ContainerState :=
  throttledWheelHandler demoConfig5 traceAfterThird 10 (traceBase + 5000)

/-- Claim C8: feeding wheel deltas 50 at `t = 0`, 40 at `t = 20`, 28 at
`t = 45` and 10 at `t = 5000` to the 5-section container (with the
completion signal for the first transition delivered by the observer before
the second event) yields exactly two accepted transitions: the `t = 0` event
is intentional and moves the index from 0 to 1, arming the throttle at that
instant; the `t = 20` and `t = 45` events are classified momentum and
rejected by the momentum-tier throttle; the `t = 5000` event is intentional,
the throttle has expired, and the index moves from 1 to 2 — the effect log
shows exactly the two scroll/URL request pairs. -/
theorem endToEnd_wheel_trace :
    (detectInertia hookTouchpadConfig initialDetectionState 50 traceBase).1 = false ∧
    traceAfterFirst.currentSection = 1 ∧
    traceAfterFirst.throttle.lastThrottleTime = traceBase ∧
    (detectInertia hookTouchpadConfig traceSettled.detection 40 (traceBase + 20)).1 = true ∧
    isThrottled hookThrottleConfig traceSettled.throttle true (traceBase + 20) = true ∧
    traceAfterSecond.currentSection = 1 ∧
    (detectInertia hookTouchpadConfig traceAfterSecond.detection 28 (traceBase + 45)).1 = true ∧
    isThrottled hookThrottleConfig traceAfterSecond.throttle true (traceBase + 45) = true ∧
    traceAfterThird.currentSection = 1 ∧
    (detectInertia hookTouchpadConfig traceAfterThird.detection 10 (traceBase + 5000)).1 = false ∧
    isThrottled hookThrottleConfig traceAfterThird.throttle false (traceBase + 5000) = false ∧
    traceAfterFourth.currentSection = 2 ∧
    traceAfterFourth.log =
      [Effect.scrollIntoView 1 .smooth, Effect.urlUpdate 1,
       Effect.scrollIntoView 2 .smooth, Effect.urlUpdate 2] := by
  decide

end ScrollSnap
